import Mathlib

/-!
Verification of the autofill engine of the hiringcafe-resume-builder browser
extension.  The JavaScript sources under `chrome-extension/content-scripts/`
(`dropdown-filler.js`, `detector.js`, `lever.js`, `ashby.js`, `taleo.js`) and
the field finder (`field-finder.js`) are embedded shallowly: DOM elements
become records of the attributes the code reads, DOM-mutating operations
become explicit state-passing functions, JavaScript exceptions become
`Except`, and asynchronous page behaviour is abstracted as an environment
parameter (what the page shows at each retry tick, what each popup
interaction does).
-/

/-- Contiguous-sublist test on character lists, used to model JavaScript
`String.prototype.includes`. -/
def charsContain (needle : List Char) : List Char → Bool
  | [] => needle.isEmpty
  | c :: rest => needle.isPrefixOf (c :: rest) || charsContain needle rest

/-- JavaScript `haystack.includes(needle)`: substring containment. -/
def strContains (haystack needle : String) : Bool :=
  charsContain needle.data haystack.data

/-- JavaScript `s.toLowerCase()`. -/
def strLower (s : String) : String :=
  String.mk (s.data.map Char.toLower)

/-! ## Dropdown filler (`dropdown-filler.js`)

A native `<option>` carries a `value` and a visible `text`. -/

structure OptionElem where
  value : String
  text : String
deriving DecidableEq, Repr

/-- A native `<select>`: its options plus the currently selected `value`. -/
structure SelectElem where
  options : List OptionElem
  value : String
deriving DecidableEq, Repr

/-- A non-`<select>` element, carrying only what `DropdownFiller.detectType`
inspects: class-name hints for react-select and the ARIA combobox markers. -/
structure OtherElem where
  tagName : String
  classHintSelect : Bool
  roleCombobox : Bool
  ariaHaspopupListbox : Bool
deriving DecidableEq, Repr

/-- The argument of `DropdownFiller.fill`/`fillNative`: `null`, a native
`<select>`, or some other element. -/
inductive DropTarget where
  | emptyRef : DropTarget
  | select : SelectElem → DropTarget
  | other : OtherElem → DropTarget
deriving DecidableEq, Repr

inductive DropKind where
  | native | reactSelect | ariaCombobox | unknownKind
deriving DecidableEq, Repr

/-- JS `DropdownFiller.detectType` (dropdown-filler.js lines 17-41). -/
def detectType : DropTarget → DropKind
  | .emptyRef => .unknownKind
  | .select _ => .native
  | .other o =>
      if o.classHintSelect then .reactSelect
      else if o.roleCombobox || o.ariaHaspopupListbox then .ariaCombobox
      else .unknownKind

/-- Strategy 1 of `fillNative`: exact value match, case-insensitive. -/
def exactValueMatch (value : String) (opt : OptionElem) : Bool :=
  strLower opt.value == strLower value

/-- Strategy 2 of `fillNative`: exact visible-text match, case-insensitive. -/
def exactTextMatch (value : String) (opt : OptionElem) : Bool :=
  strLower opt.text == strLower value

/-- Strategy 3 of `fillNative`: option text contains the search term. -/
def textContainsMatch (value : String) (opt : OptionElem) : Bool :=
  strContains (strLower opt.text) (strLower value)

/-- Strategy 4 of `fillNative`: the search term contains the option text. -/
def valueContainsTextMatch (value : String) (opt : OptionElem) : Bool :=
  strContains (strLower value) (strLower opt.text)

/-- The option-selection logic of `DropdownFiller.fillNative`
(dropdown-filler.js lines 54-81): four `find` passes, each pass tried only
when every earlier pass produced no match. -/
def fillNativeChoice (options : List OptionElem) (value : String) : Option OptionElem :=
  match options.find? (exactValueMatch value) with
  | some o => some o
  | none =>
    match options.find? (exactTextMatch value) with
    | some o => some o
    | none =>
      match options.find? (textContainsMatch value) with
      | some o => some o
      | none => options.find? (valueContainsTextMatch value)

/-- JS `DropdownFiller.fillNative` (dropdown-filler.js lines 49-97) as a state
transformer.  Returns the boolean result, the element afterwards, and the
list of events dispatched on it (in dispatch order: `change`, `input`,
`blur` on success). -/
def fillNative (element : DropTarget) (value : String) :
    Bool × DropTarget × List String :=
  match element with
  | .emptyRef => (false, .emptyRef, [])
  | .other o => (false, .other o, [])
  | .select s =>
    match fillNativeChoice s.options value with
    | some opt =>
        (true, .select { s with value := opt.value }, ["change", "input", "blur"])
    | none => (false, .select s, [])

/-- The three gender options of the C2 scenario (an HTML option with no
`value` attribute reflects its text as its value). -/
def genderOptions : List OptionElem :=
  [⟨"Male", "Male"⟩, ⟨"Female", "Female"⟩, ⟨"Non-binary", "Non-binary"⟩]

/-- C2: `fillNative` searches the option list in exactly four fallback
passes — exact value, exact text, option-text-contains-term,
term-contains-option-text, all case-insensitive — taking the first match of
the first pass that yields any match; in particular for options
`["Male","Female","Non-binary"]` and target `"male"` the exact-value match
`"Male"` is selected even though `"Female"`'s text contains `"male"`. -/
theorem c2_native_dropdown_four_passes :
    (∀ (opts : List OptionElem) (v : String) (o : OptionElem),
      opts.find? (exactValueMatch v) = some o → fillNativeChoice opts v = some o) ∧
    (∀ (opts : List OptionElem) (v : String) (o : OptionElem),
      opts.find? (exactValueMatch v) = none →
      opts.find? (exactTextMatch v) = some o → fillNativeChoice opts v = some o) ∧
    (∀ (opts : List OptionElem) (v : String) (o : OptionElem),
      opts.find? (exactValueMatch v) = none →
      opts.find? (exactTextMatch v) = none →
      opts.find? (textContainsMatch v) = some o → fillNativeChoice opts v = some o) ∧
    (∀ (opts : List OptionElem) (v : String),
      opts.find? (exactValueMatch v) = none →
      opts.find? (exactTextMatch v) = none →
      opts.find? (textContainsMatch v) = none →
      fillNativeChoice opts v = opts.find? (valueContainsTextMatch v)) ∧
    fillNativeChoice genderOptions "male" = some ⟨"Male", "Male"⟩ ∧
    textContainsMatch "male" ⟨"Female", "Female"⟩ = true := by
  refine ⟨?_, ?_, ?_, ?_, ?_, ?_⟩
  · intro opts v o h; simp [fillNativeChoice, h]
  · intro opts v o h1 h2; simp [fillNativeChoice, h1, h2]
  · intro opts v o h1 h2 h3; simp [fillNativeChoice, h1, h2, h3]
  · intro opts v h1 h2 h3; simp [fillNativeChoice, h1, h2, h3]
  · decide
  · decide

/-- Witness for C2: the first conjunct applied to the spec's exact-value
scenario (`{value:"CA",text:"California"}`, target `"CA"`). -/
theorem c2_native_dropdown_four_passes_witness :
    fillNativeChoice [⟨"CA", "California"⟩] "CA" = some ⟨"CA", "California"⟩ :=
  c2_native_dropdown_four_passes.1 [⟨"CA", "California"⟩] "CA"
    ⟨"CA", "California"⟩ (by decide)

/-! ## Value injector (`lever.js` lines 19-38; identical in `ashby.js`,
`taleo.js`)

An input element is modelled by its current observable value together with
the behaviour the injector interacts with: the result of
`document.execCommand('insertText', ...)` after focus-and-clear, the own
(instance-level) `value` property descriptor if any, and the prototype's
`value` setter.  A setter takes the assigned value and the current value
and yields the new observable value. -/

structure OwnDescr where
  /-- The `set` member of the own descriptor (`undefined` for a data
  property is `none`). -/
  setter : Option (String → String → String)
  /-- Whether the own setter is the same function as the prototype setter
  (the `valueSetter !== prototypeValueSetter` test). -/
  eqProto : Bool

structure InputElem where
  value : String
  /-- Behaviour of `execCommand('insertText', false, v)` on the cleared
  element: the boolean the command reports, and the element's observable
  value immediately afterwards. -/
  execInsert : String → Bool × String
  /-- JS `Object.getOwnPropertyDescriptor(element, 'value')`: `none` when the
  element has no own `value` property (the usual case for a plain input),
  in which case reading `.set` throws a TypeError. -/
  ownDescr : Option OwnDescr
  /-- The setter of `Object.getOwnPropertyDescriptor(prototype, 'value')`
  (always present on `HTMLInputElement.prototype`). -/
  protoSet : String → String → String

/-- JS `setNativeValue` (lever.js lines 19-38).  Focuses and clears the
element, attempts `insertText`, and when the command fails or the value
does not equal the target falls back to the property setter and dispatches
`input` and `change`; `blur` is dispatched last.  Returns the final
observable value and the dispatched events, or `Except.error` when the
fallback path throws (no own `value` descriptor, or an own data property
with no setter). -/
def setNativeValue (el : InputElem) (v : String) : Except Unit (String × List String) :=
  if !(el.execInsert v).1 || (el.execInsert v).2 != v then
    match el.ownDescr with
    | none => .error ()
    | some d =>
      if d.setter.isSome && !d.eqProto then
        .ok (el.protoSet v (el.execInsert v).2, ["input", "change", "blur"])
      else
        match d.setter with
        | some s => .ok (s v (el.execInsert v).2, ["input", "change", "blur"])
        | none => .error ()
  else
    .ok ((el.execInsert v).2, ["blur"])

/-- The synchronous body of one `tryFill` tick for a present field
(lever.js lines 70-77): if the current value already equals the target the
field is only marked safe; otherwise `setNativeValue` runs. -/
def tryFillTick (f : InputElem) (target : String) : Except Unit (InputElem × List String) :=
  if f.value == target then .ok (f, [])
  else
    match setNativeValue f target with
    | .error e => .error e
    | .ok (v, evs) => .ok ({ f with value := v }, evs)

/-- The element of the C1/§8 React-style revert scenario: `insertText` is
intercepted (reports failure, value stays cleared), the instance-level
setter ignores assignment, the prototype setter honours it. -/
def elOverridden : InputElem :=
  { value := ""
    execInsert := fun _ => (false, "")
    ownDescr := some { setter := some (fun _ old => old), eqProto := false }
    protoSet := fun v _ => v }

/-- An element with no instance-level `value` descriptor whose `insertText`
command fails: the injector's fallback path throws. -/
def elNoOwnDescr : InputElem :=
  { value := "old"
    execInsert := fun _ => (false, "")
    ownDescr := none
    protoSet := fun v _ => v }

/-- A plain well-behaved element: `insertText` succeeds and inserts the
text; the own descriptor setter coincides with the prototype setter. -/
def elPlain : InputElem :=
  { value := ""
    execInsert := fun s => (true, s)
    ownDescr := some { setter := some (fun v _ => v), eqProto := true }
    protoSet := fun v _ => v }


/-- Counterexample to C1: an element whose `insertText` command reports
failure while leaving the cleared value `""`, injected with target `""`.
The value after the command equals the target, yet the code still takes
the fallback — the setter is invoked and `input`/`change` are dispatched —
because its test is `!success || element.value !== value`, not value
inequality alone.  So the fallback does not run "if and only if the
element's value afterwards does not equal the target". -/
theorem c1_fallback_despite_value_match :
    setNativeValue elOverridden "" = .ok ("", ["input", "change", "blur"]) ∧
    (elOverridden.execInsert "").2 = "" :=
  ⟨rfl, rfl⟩

/-- C1 (amended): the fallback setter-plus-events path runs if and only if
the `insertText` command reported failure **or** the value afterwards does
not equal the target; in every non-throwing run `blur` is dispatched last;
on the fallback path an instance-level setter override that differs from
the prototype setter is bypassed in favour of the prototype setter; and
for the scenario element whose instance setter ignores assignment,
injecting `"test@x.com"` ends with value `"test@x.com"` via the fallback
path with `input` and `change` dispatched. -/
theorem c1_injector_fallback_amended :
    (∀ (el : InputElem) (v val : String) (evs : List String),
      setNativeValue el v = .ok (val, evs) →
      evs.getLast? = some "blur" ∧
      (evs = ["blur"] ↔ ((el.execInsert v).1 = true ∧ (el.execInsert v).2 = v)) ∧
      (evs = ["input", "change", "blur"] ↔
        ¬((el.execInsert v).1 = true ∧ (el.execInsert v).2 = v)) ∧
      (∀ d, el.ownDescr = some d → d.setter.isSome = true → d.eqProto = false →
        ¬((el.execInsert v).1 = true ∧ (el.execInsert v).2 = v) →
        val = el.protoSet v (el.execInsert v).2)) ∧
    setNativeValue elOverridden "test@x.com" =
      .ok ("test@x.com", ["input", "change", "blur"]) := by
  constructor
  · intro el v val evs h
    rcases hr : el.execInsert v with ⟨success, after⟩
    unfold setNativeValue at h
    simp only [hr] at h ⊢
    by_cases hgood : success = true ∧ after = v
    · obtain ⟨hs, ha⟩ := hgood
      subst hs; subst ha
      rw [if_neg (by simp)] at h
      simp only [Except.ok.injEq, Prod.mk.injEq] at h
      obtain ⟨hval, hevs⟩ := h
      subst hval; subst hevs
      refine ⟨rfl, by simp, by simp, ?_⟩
      intro d _ _ _ hc
      exact absurd ⟨rfl, rfl⟩ hc
    · have hcond : (!success || after != v) = true := by
        rcases hs : success with _ | _
        · simp
        · have hav : after ≠ v := fun hv => hgood ⟨hs, hv⟩
          simp [hav]
      rw [if_pos hcond] at h
      split at h
      next hd => exact (Except.noConfusion h)
      next d hd =>
        by_cases hsp : (d.setter.isSome && !d.eqProto) = true
        · rw [if_pos hsp] at h
          simp only [Except.ok.injEq, Prod.mk.injEq] at h
          obtain ⟨hval, hevs⟩ := h
          subst hval; subst hevs
          refine ⟨rfl, ?_, ?_, ?_⟩
          · exact ⟨fun habs => absurd habs (by decide), fun hx => absurd hx hgood⟩
          · exact ⟨fun _ => hgood, fun _ => rfl⟩
          · intro d2 _ _ _ _
            rfl
        · rw [if_neg hsp] at h
          split at h
          next s hos =>
            simp only [Except.ok.injEq, Prod.mk.injEq] at h
            obtain ⟨hval, hevs⟩ := h
            subst hval; subst hevs
            refine ⟨rfl, ?_, ?_, ?_⟩
            · exact ⟨fun habs => absurd habs (by decide), fun hx => absurd hx hgood⟩
            · exact ⟨fun _ => hgood, fun _ => rfl⟩
            · intro d2 hd2 hs2 hp2 _
              rw [hd] at hd2
              injection hd2 with he
              subst he
              exact absurd (by simp [hs2, hp2]) hsp
          next hos => exact (Except.noConfusion h)
  · rfl

/-- Witness for C1 (amended): the universal part applied to the plain
element, whose `insertText` succeeds, with target `"a"`. -/
theorem c1_injector_fallback_amended_witness :
    (["blur"] : List String).getLast? = some "blur" :=
  (c1_injector_fallback_amended.1 elPlain "a" "a" ["blur"] rfl).1

/-- The plain element after a successful injection of `"test@x.com"`. -/
def elFilled : InputElem :=
  { elPlain with value := "test@x.com" }

/-- C6: when the field's value already equals the target, the per-field
fill step (`tryFill` tick, lever.js lines 70-73) returns immediately: the
element is unchanged and no event at all — in particular no further
`change` — is dispatched. -/
theorem c6_refill_noop :
    ∀ (f : InputElem) (target : String), f.value = target →
      tryFillTick f target = .ok (f, []) := by
  intro f target h
  simp [tryFillTick, h]

/-- Witness for C6: re-filling `"test@x.com"` into the already-filled
element leaves it unchanged and dispatches nothing. -/
theorem c6_refill_noop_witness :
    tryFillTick elFilled "test@x.com" = .ok (elFilled, []) :=
  c6_refill_noop elFilled "test@x.com" rfl

/-! ## Retry loop (`tryFill`, lever.js lines 59-84; same shape in
ashby.js lines 68-93 and taleo.js lines 96-119)

The loop is driven by the page: `obs t` is the value the (re-resolved)
field shows at scheduled tick `t`, with `none` when no field can be found
at that tick.  Each tick either reschedules (field missing, budget left),
confirms (value equals target), or injects once and reschedules while the
budget lasts. -/

/-- The retry budget the handlers pass to `tryFill` (lever.js line 84). -/
def retryBudget : Nat := 5

/-- The delay in milliseconds between scheduled retries (lever.js line 80). -/
def retryDelayMs : Nat := 500

/-- Number of injections (`setNativeValue` calls) the `tryFill` loop
performs from tick `tick` with the given remaining budget. -/
def tryFillInjections (obs : Nat → Option String) (target : String) :
    Nat → Nat → Nat
  | tick, 0 =>
    match obs tick with
    | none => 0
    | some v => if v == target then 0 else 1
  | tick, r + 1 =>
    match obs tick with
    | none => tryFillInjections obs target (tick + 1) r
    | some v =>
      if v == target then 0 else 1 + tryFillInjections obs target (tick + 1) r


/-- Whether the `tryFill` loop ever observes the target value (and hence
marks the field confirmed/safe before stopping). -/
def tryFillConfirmed (obs : Nat → Option String) (target : String) :
    Nat → Nat → Bool
  | tick, 0 =>
    match obs tick with
    | none => false
    | some v => v == target
  | tick, r + 1 =>
    match obs tick with
    | none => tryFillConfirmed obs target (tick + 1) r
    | some v =>
      if v == target then true else tryFillConfirmed obs target (tick + 1) r

/-- C5: against any page behaviour — in particular one that reverts the
value after every injection — the `tryFill` loop performs at most
`budget + 1` injections (the initial one plus at most `budget = 5`
scheduled re-injections, one per 500 ms tick) and, being a total
function of the budget, terminates rather than looping forever. -/
theorem c5_retry_budget_bound :
    (∀ (obs : Nat → Option String) (target : String) (tick r : Nat),
      tryFillInjections obs target tick r ≤ r + 1) ∧
    (∀ (obs : Nat → Option String) (target : String) (tick : Nat),
      tryFillInjections obs target tick retryBudget ≤ retryBudget + 1) := by
  have key : ∀ (obs : Nat → Option String) (target : String) (r tick : Nat),
      tryFillInjections obs target tick r ≤ r + 1 := by
    intro obs target r
    induction r with
    | zero =>
      intro tick
      rcases hob : obs tick with _ | v
      · simp [tryFillInjections, hob]
      · simp only [tryFillInjections, hob]
        split <;> omega
    | succ n ih =>
      intro tick
      rcases hob : obs tick with _ | v
      · simp only [tryFillInjections, hob]
        exact le_trans (ih (tick + 1)) (by omega)
      · simp only [tryFillInjections, hob]
        split
        · omega
        · have := ih (tick + 1)
          omega
  exact ⟨fun obs target tick r => key obs target r tick,
    fun obs target tick => key obs target retryBudget tick⟩

/-! ## Per-field error propagation (`lever.js` `fillField`, lines 40-86)

`fillField` locates a field and synchronously runs the first `tryFill`
tick; unlike the dropdown driver it wraps nothing in `try`/`catch`, so an
exception thrown by `setNativeValue` escapes `fillField` and the whole
`runAutoFill` pass. -/

/-- The synchronous part of lever.js `fillField` applied to an
already-located field (`none` when both the direct-selector strategy and
`findField` found nothing): a missing field returns `false`; a found field
runs the first `tryFill` tick — uncaught — and returns `true`. -/
def leverFillFieldSync (located : Option InputElem) (value : String) :
    Except Unit Bool :=
  match located with
  | none => .ok false
  | some f =>
    match tryFillTick f value with
    | .error e => .error e
    | .ok _ => .ok true

/-- A `runAutoFill` pass over its field list (lever.js lines 104-116):
each `fillField` call runs in sequence with no surrounding `try`/`catch`,
accumulating the count of found fields; an exception aborts the rest of
the pass. -/
def leverPassSync (fields : List (Option InputElem × String)) :
    Except Unit Nat :=
  fields.foldlM
    (fun acc fv =>
      match leverFillFieldSync fv.1 fv.2 with
      | .error e => .error e
      | .ok b => .ok (if b then acc + 1 else acc))
    0

/-- Counterexample to C8: in the lever handler a field whose `insertText`
fails and which has no own `value` property descriptor makes
`setNativeValue` throw (`Object.getOwnPropertyDescriptor(element,
'value').set` on `undefined`); nothing catches it, so the exception
escapes the per-field level and aborts the pass — the second field, which
alone would fill fine, is never attempted. -/
theorem c8_uncaught_injection_error :
    leverPassSync [(some elNoOwnDescr, "test@x.com"), (some elPlain, "hello")] =
      .error () ∧
    leverFillFieldSync (some elPlain) "hello" = .ok true :=
  ⟨rfl, rfl⟩

/-! ## Popup dropdown strategies (`dropdown-filler.js` lines 105-204)

`fillReactSelect` and `fillARIACombobox` interact with page-rendered
popups; each page interaction may throw.  The page's behaviour during one
invocation is an explicit environment: the outcome of each click/type
step and the text contents of the currently rendered option elements. -/

structure ReactSelectEnv where
  /-- JS `if (!container) return false`: whether a container was passed. -/
  containerPresent : Bool
  /-- JS `control.click()` — may throw. -/
  controlClick : Except Unit Unit
  /-- Whether a filter input was found inside the container. -/
  hasFilterInput : Bool
  /-- JS `this.setNativeValue(input, value)` — may throw. -/
  typeValue : Except Unit Unit
  /-- JS `textContent` of the rendered elements matching `[class*="option"]`. -/
  optionTexts : List String
  /-- JS `option.click()` on the matching option — may throw. -/
  optionClick : Except Unit Unit
  /-- JS `document.body.click()` to close the popup — may throw. -/
  bodyClick : Except Unit Unit

/-- The `try` body of `DropdownFiller.fillReactSelect` (lines 108-144):
open the popup, optionally type the value, scan rendered options for a
bidirectional case-insensitive containment match, click the first match
(returning `true`) or close the popup (returning `false`). -/
def fillReactSelectBody (env : ReactSelectEnv) (value : String) :
    Except Unit Bool :=
  match env.controlClick with
  | .error e => .error e
  | .ok _ =>
    match (if env.hasFilterInput then env.typeValue else .ok ()) with
    | .error e => .error e
    | .ok _ =>
      match env.optionTexts.find? (fun t =>
          strContains (strLower t) (strLower value) ||
          strContains (strLower value) (strLower t)) with
      | some _ =>
        match env.optionClick with
        | .error e => .error e
        | .ok _ => .ok true
      | none =>
        match env.bodyClick with
        | .error e => .error e
        | .ok _ => .ok false

/-- JS `DropdownFiller.fillReactSelect` (lines 105-150): the guard for a
missing container, then the body inside `try { ... } catch { return
false }`. -/
def fillReactSelect (env : ReactSelectEnv) (value : String) :
    Except Unit Bool :=
  if !env.containerPresent then .ok false
  else
    match fillReactSelectBody env value with
    | .error _ => .ok false
    | .ok b => .ok b

structure AriaEnv where
  /-- Whether an element was passed (`if (!element) return false`). -/
  elementPresent : Bool
  /-- JS `element.click(); element.focus()` — may throw. -/
  elemClick : Except Unit Unit
  /-- Whether a listbox was resolved (via `aria-controls`/`aria-owns` or
  the visible-listbox fallback). -/
  listboxFound : Bool
  /-- JS `textContent` of the listbox's `[role="option"]` elements. -/
  optionTexts : List String
  /-- JS `option.click()` on the matching option — may throw. -/
  optionClick : Except Unit Unit
  /-- JS `element.blur()` to close the combobox — may throw. -/
  elemBlur : Except Unit Unit

/-- The `try` body of `DropdownFiller.fillARIACombobox` (lines 161-198). -/
def fillAriaBody (env : AriaEnv) (value : String) : Except Unit Bool :=
  match env.elemClick with
  | .error e => .error e
  | .ok _ =>
    if !env.listboxFound then .ok false
    else
      match env.optionTexts.find? (fun t =>
          strContains (strLower t) (strLower value) ||
          strContains (strLower value) (strLower t)) with
      | some _ =>
        match env.optionClick with
        | .error e => .error e
        | .ok _ => .ok true
      | none =>
        match env.elemBlur with
        | .error e => .error e
        | .ok _ => .ok false

/-- JS `DropdownFiller.fillARIACombobox` (lines 158-204): missing-element
guard, then the body inside `try { ... } catch { return false }`. -/
def fillAriaCombobox (env : AriaEnv) (value : String) : Except Unit Bool :=
  if !env.elementPresent then .ok false
  else
    match fillAriaBody env value with
    | .error _ => .ok false
    | .ok b => .ok b

/-- C8 (amended): exceptions are contained only in the dropdown driver's
popup strategies — `fillReactSelect` and `fillARIACombobox` wrap their
bodies in `try`/`catch` and always return a boolean, never a thrown
error, whatever the page does — whereas (per the counterexample) the text
-field injection path of the handlers has no catch and an exception there
aborts the remainder of the pass. -/
theorem c8_dropdown_errors_contained_amended :
    ∀ (rsEnv : ReactSelectEnv) (ariaEnv : AriaEnv) (value : String),
      (fillReactSelect rsEnv value).isOk = true ∧
      (fillAriaCombobox ariaEnv value).isOk = true := by
  intro rsEnv ariaEnv value
  constructor
  · unfold fillReactSelect
    split
    · rfl
    · split <;> rfl
  · unfold fillAriaCombobox
    split
    · rfl
    · split <;> rfl

/-- JS `DropdownFiller.fill` (dropdown-filler.js lines 212-236): guard
`if (!element || !value) return false` (the empty string is the only
falsy string), then dispatch on `detectType`; the `unknown` kind falls
back to the native strategy.  Returns the boolean outcome, the element
afterwards, and the events dispatched on it (popup strategies interact
with other nodes of the document, captured in their environments, and
dispatch nothing on the element itself). -/
def fillDrop (rsEnv : ReactSelectEnv) (ariaEnv : AriaEnv)
    (element : DropTarget) (value : String) : Bool × DropTarget × List String :=
  match element with
  | .emptyRef => (false, .emptyRef, [])
  | el =>
    if value = "" then (false, el, [])
    else
      match detectType el with
      | .native => fillNative el value
      | .reactSelect =>
        match fillReactSelect rsEnv value with
        | .ok b => (b, el, [])
        | .error _ => (false, el, [])
      | .ariaCombobox =>
        match fillAriaCombobox ariaEnv value with
        | .ok b => (b, el, [])
        | .error _ => (false, el, [])
      | .unknownKind => fillNative el value

/-- C10: every failure of the native dropdown fill is atomic and
side-effect-free on the target element — a missing element, a
non-`<select>` element, an empty value (caught by `fill`'s guard), or no
option matched by any of the four passes all yield `false` with no
`change`/`input`/`blur` dispatched and the selected value unchanged. -/
theorem c10_native_fill_failure_atomic :
    (∀ (rsEnv : ReactSelectEnv) (ariaEnv : AriaEnv) (v : String),
      fillDrop rsEnv ariaEnv .emptyRef v = (false, .emptyRef, [])) ∧
    (∀ (rsEnv : ReactSelectEnv) (ariaEnv : AriaEnv) (el : DropTarget),
      fillDrop rsEnv ariaEnv el "" = (false, el, [])) ∧
    (∀ (o : OtherElem) (v : String),
      fillNative (.other o) v = (false, .other o, [])) ∧
    (∀ (s : SelectElem) (v : String),
      fillNativeChoice s.options v = none →
      fillNative (.select s) v = (false, .select s, [])) ∧
    (∀ (rsEnv : ReactSelectEnv) (ariaEnv : AriaEnv) (s : SelectElem) (v : String),
      v ≠ "" → fillNativeChoice s.options v = none →
      fillDrop rsEnv ariaEnv (.select s) v = (false, .select s, [])) := by
  refine ⟨?_, ?_, ?_, ?_, ?_⟩
  · intro rsEnv ariaEnv v; rfl
  · intro rsEnv ariaEnv el
    cases el with
    | emptyRef => rfl
    | select s => simp [fillDrop]
    | other o => simp [fillDrop]
  · intro o v; rfl
  · intro s v h; simp [fillNative, h]
  · intro rsEnv ariaEnv s v hv h
    simp [fillDrop, hv, detectType, fillNative, h]

/-- Witness for C10: the no-match conjunct applied to a one-option select
and the unmatched value `"zz"`. -/
theorem c10_native_fill_failure_atomic_witness :
    fillNative (.select ⟨[⟨"CA", "California"⟩], "CA"⟩) "zz" =
      (false, .select ⟨[⟨"CA", "California"⟩], "CA"⟩, []) :=
  c10_native_fill_failure_atomic.2.2.2.1 ⟨[⟨"CA", "California"⟩], "CA"⟩ "zz"
    (by decide)

/-! ## Field finder (`field-finder.js`)

A DOM element is a record of exactly the attributes `findField` reads; a
label carries its visible text, its `for` attribute (the empty string
when absent, which is falsy in the `if (label.htmlFor)` test) and its
descendant elements in document order. -/

structure DomElement where
  id : String
  tag : String
  /-- JS `el.type`, e.g. `"hidden"`, `"text"`, `"file"`. -/
  ty : String
  /-- JS `el.style.display` (inline style, `""` when unset). -/
  styleDisplay : String
  /-- JS `el.style.visibility`. -/
  styleVisibility : String
  /-- JS `getComputedStyle(el).display`. -/
  computedDisplay : String
  /-- JS `getComputedStyle(el).visibility`. -/
  computedVisibility : String
  placeholder : Option String
  name : Option String
  ariaLabel : Option String
deriving DecidableEq, Repr

structure LabelElem where
  innerText : String
  htmlFor : String
  nested : List DomElement
deriving DecidableEq, Repr

structure Dom where
  labels : List LabelElem
  elements : List DomElement
deriving DecidableEq, Repr

/-- JS `document.getElementById` over the element list. -/
def getElementById (dom : Dom) (i : String) : Option DomElement :=
  dom.elements.find? (fun e => e.id == i)

/-- The `matches` helper (field-finder.js lines 22-26): a null or empty
text is falsy and fails; otherwise any keyword contained (case-
insensitively) in the text matches. -/
def matchesText (lowerKws : List String) (text : Option String) : Bool :=
  match text with
  | none => false
  | some t =>
    if t = "" then false
    else lowerKws.any (fun k => strContains (strLower t) k)

/-- Resolution of one keyword-matching label (lines 33-42): the `for`
attribute when truthy and resolvable, otherwise the first nested element
of the requested kind; `none` lets the label loop continue. -/
def labelResolve (dom : Dom) (ty : String) (lab : LabelElem) : Option DomElement :=
  match (if lab.htmlFor != "" then getElementById dom lab.htmlFor else none) with
  | some el => some el
  | none => lab.nested.find? (fun e => e.tag == ty)

/-- Strategy 1 of `findField` (lines 30-43): the first label whose visible
text matches a keyword and which resolves to an element. -/
def labelStrategy (dom : Dom) (lowerKws : List String) (ty : String) :
    Option DomElement :=
  dom.labels.findSome? (fun lab =>
    if matchesText lowerKws (some lab.innerText) then labelResolve dom ty lab
    else none)

/-- The hidden-element test of strategy 2 (lines 51-57). -/
def isHiddenEl (el : DomElement) : Bool :=
  el.ty == "hidden" || el.styleDisplay == "none" ||
  el.styleVisibility == "hidden" || el.computedDisplay == "none" ||
  el.computedVisibility == "hidden"

/-- Strategy 2 of `findField` (lines 45-70): scan all elements of the
requested kind in order, skip hidden ones, and return the first whose
placeholder, name, aria-label or id matches a keyword. -/
def attrStrategy (dom : Dom) (lowerKws : List String) (ty : String) :
    Option DomElement :=
  (dom.elements.filter (fun e => e.tag == ty)).findSome? (fun el =>
    if isHiddenEl el then none
    else if matchesText lowerKws el.placeholder || matchesText lowerKws el.name ||
        matchesText lowerKws el.ariaLabel || matchesText lowerKws (some el.id) then
      some el
    else none)

/-- JS `FieldFinder.findField` (field-finder.js lines 18-73): keywords are
lowercased once, then strategy 1 (labels) runs before strategy 2
(attribute scan); the first strategy to produce an element wins. -/
def findField (dom : Dom) (keywords : List String) (ty : String) :
    Option DomElement :=
  let lowerKeywords := keywords.map strLower
  match labelStrategy dom lowerKeywords ty with
  | some el => some el
  | none => attrStrategy dom lowerKeywords ty

/-- C3: whenever the explicit-label strategy reaches some element, that
element — and no other, in particular no attribute-matched one — is what
`findField` returns. -/
theorem c3_label_priority :
    ∀ (dom : Dom) (keywords : List String) (ty : String) (e : DomElement),
      labelStrategy dom (keywords.map strLower) ty = some e →
      findField dom keywords ty = some e ∧
      ∀ eA : DomElement, findField dom keywords ty = some eA → eA = e := by
  intro dom keywords ty e h
  have h2 : findField dom keywords ty = some e := by
    simp [findField, h]
  refine ⟨h2, fun eA hA => ?_⟩
  rw [h2] at hA
  injection hA with he
  exact he.symm

/-- The target input of the C3 scenario `<input id="f1">`. -/
def emailInput : DomElement :=
  { id := "f1", tag := "input", ty := "text", styleDisplay := "",
    styleVisibility := "", computedDisplay := "block",
    computedVisibility := "visible", placeholder := none, name := none,
    ariaLabel := none }

/-- A distractor input reachable only through its `placeholder`. -/
def placeholderInput : DomElement :=
  { emailInput with id := "p1", placeholder := some "email" }

/-- The C3 scenario DOM: `<label for="f1">Email Address</label>` plus the
two inputs, with the placeholder-matching distractor listed first. -/
def labelDom : Dom :=
  { labels := [{ innerText := "Email Address", htmlFor := "f1", nested := [] }],
    elements := [placeholderInput, emailInput] }

/-- Witness for C3: on the scenario DOM with keywords `["email"]` the
locator returns the label-associated input with id `f1`, not the
distractor that precedes it in document order. -/
theorem c3_label_priority_witness :
    findField labelDom ["email"] "input" = some emailInput ∧
    emailInput.id = "f1" :=
  ⟨(c3_label_priority labelDom ["email"] "input" emailInput (by decide)).1, rfl⟩

/-- A hidden input whose `name` matches the keywords and which a label
points at through its `for` attribute. -/
def hiddenEmailInput : DomElement :=
  { id := "h1", tag := "input", ty := "hidden", styleDisplay := "",
    styleVisibility := "", computedDisplay := "none",
    computedVisibility := "visible", placeholder := none,
    name := some "email", ariaLabel := none }

/-- A DOM in which the only route to the hidden input other than its
matching `name` is a keyword-matching label. -/
def hiddenLabelDom : Dom :=
  { labels := [{ innerText := "Email Address", htmlFor := "h1", nested := [] }],
    elements := [hiddenEmailInput] }

/-- Counterexample to C4: the attribute scan does skip hidden elements,
but the label strategy runs first and performs no hidden check — a label
whose `for` attribute points at a hidden input with a keyword-matching
`name` makes `findField` return that hidden input. -/
theorem c4_hidden_via_label_counterexample :
    findField hiddenLabelDom ["email"] "input" = some hiddenEmailInput ∧
    isHiddenEl hiddenEmailInput = true ∧
    matchesText ["email"] hiddenEmailInput.name = true := by
  decide

/-- C4 (amended): when no label matches (so only the attribute scan can
produce the result), the element returned by `findField` is never hidden;
a hidden input with a matching `name` can only be returned through an
associated label. -/
theorem c4_hidden_exclusion_amended :
    ∀ (dom : Dom) (keywords : List String) (ty : String) (e : DomElement),
      labelStrategy dom (keywords.map strLower) ty = none →
      findField dom keywords ty = some e →
      isHiddenEl e = false := by
  intro dom keywords ty e hlab hfind
  have hattr : attrStrategy dom (keywords.map strLower) ty = some e := by
    simpa [findField, hlab] using hfind
  obtain ⟨x, _, hx⟩ := List.exists_of_findSome?_eq_some hattr
  split at hx
  · exact Option.noConfusion hx
  · split at hx
    · injection hx with he
      subst he
      next hh _ => exact Bool.eq_false_iff.mpr hh
    · exact Option.noConfusion hx

/-- A visible input in a label-free DOM, matched by its `name`. -/
def visibleEmailInput : DomElement :=
  { id := "e1", tag := "input", ty := "text", styleDisplay := "",
    styleVisibility := "", computedDisplay := "block",
    computedVisibility := "visible", placeholder := none,
    name := some "email", ariaLabel := none }

/-- The label-free DOM for the C4 witness. -/
def attrOnlyDom : Dom :=
  { labels := [], elements := [visibleEmailInput] }

/-- Witness for C4 (amended): applied to the label-free DOM, where the
attribute scan returns the visible input. -/
theorem c4_hidden_exclusion_amended_witness :
    isHiddenEl visibleEmailInput = false :=
  c4_hidden_exclusion_amended attrOnlyDom ["email"] "input" visibleEmailInput
    rfl (by decide)

/-! ## Platform classifier (`detector.js`)

The classifier reads `window.location.hostname`, the lowercased
`window.location.href`, and three DOM probes. -/

structure PageInfo where
  hostname : String
  href : String
  /-- JS `document.querySelector('#greenhouse-application')` found a node. -/
  hasGreenhouseApp : Bool
  /-- JS `document.querySelector('div[id^="greenhouse"]')` found a node. -/
  hasGreenhouseDiv : Bool
  /-- JS `document.querySelector('meta[content*="Lever"]')` found a node. -/
  hasLeverMeta : Bool
deriving DecidableEq, Repr

inductive Platform where
  | greenhouse | lever | workday | taleo | smartrecruiters | ashby | unknown
deriving DecidableEq, Repr

/-- The branch structure of `ATSDetector.getPlatform` (detector.js lines
17-54) over the eleven boolean tests it performs, in source order: note
the `#greenhouse-application` DOM probe sits inside the **first** branch,
before the remaining hostname checks. -/
def getPlatformCore (hGh uGh dGhApp hLev uLev hWd hTal hSr hAsh dGhDiv dLevMeta : Bool) :
    Platform :=
  if hGh || uGh || dGhApp then .greenhouse
  else if hLev || uLev then .lever
  else if hWd then .workday
  else if hTal then .taleo
  else if hSr then .smartrecruiters
  else if hAsh then .ashby
  else if dGhDiv then .greenhouse
  else if dLevMeta then .lever
  else .unknown

/-- JS `ATSDetector.getPlatform` on a page. -/
def getPlatform (p : PageInfo) : Platform :=
  getPlatformCore
    (strContains p.hostname "greenhouse.io")
    (strContains (strLower p.href) "boards.greenhouse.io")
    p.hasGreenhouseApp
    (strContains p.hostname "lever.co")
    (strContains (strLower p.href) "jobs.lever.co")
    (strContains p.hostname "myworkdayjobs.com")
    (strContains p.hostname "taleo.net")
    (strContains p.hostname "smartrecruiters.com")
    (strContains p.hostname "ashbyhq.com")
    p.hasGreenhouseDiv
    p.hasLeverMeta

/-- Whether some entry of the static hostname/URL domain table matches. -/
def hostMatch (p : PageInfo) : Bool :=
  strContains p.hostname "greenhouse.io" ||
  strContains (strLower p.href) "boards.greenhouse.io" ||
  strContains p.hostname "lever.co" ||
  strContains (strLower p.href) "jobs.lever.co" ||
  strContains p.hostname "myworkdayjobs.com" ||
  strContains p.hostname "taleo.net" ||
  strContains p.hostname "smartrecruiters.com" ||
  strContains p.hostname "ashbyhq.com"

/-- Whether some DOM marker matches. -/
def domMatch (p : PageInfo) : Bool :=
  p.hasGreenhouseApp || p.hasGreenhouseDiv || p.hasLeverMeta

/-- The decision order C9 describes, restricted to the hostname table:
every hostname/URL entry checked in fixed priority order with no DOM
marker consulted, over the same boolean tests. -/
def specHostnameCore (hGh uGh hLev uLev hWd hTal hSr hAsh : Bool) : Platform :=
  if hGh || uGh then .greenhouse
  else if hLev || uLev then .lever
  else if hWd then .workday
  else if hTal then .taleo
  else if hSr then .smartrecruiters
  else if hAsh then .ashby
  else .unknown

/-- The spec-described hostname-table lookup on a page. -/
def specHostnameLookup (p : PageInfo) : Platform :=
  specHostnameCore
    (strContains p.hostname "greenhouse.io")
    (strContains (strLower p.href) "boards.greenhouse.io")
    (strContains p.hostname "lever.co")
    (strContains (strLower p.href) "jobs.lever.co")
    (strContains p.hostname "myworkdayjobs.com")
    (strContains p.hostname "taleo.net")
    (strContains p.hostname "smartrecruiters.com")
    (strContains p.hostname "ashbyhq.com")

/-- Boolean-level facts about the branch structure, checked by finite
case analysis. -/
theorem getPlatformCore_spec :
    ∀ hGh uGh dGhApp hLev uLev hWd hTal hSr hAsh dGhDiv dLevMeta : Bool,
      (getPlatformCore hGh uGh dGhApp hLev uLev hWd hTal hSr hAsh dGhDiv dLevMeta =
          .unknown ↔
        ((hGh || uGh || hLev || uLev || hWd || hTal || hSr || hAsh) = false ∧
          (dGhApp || dGhDiv || dLevMeta) = false)) ∧
      ((dGhApp || dGhDiv || dLevMeta) = false →
        getPlatformCore hGh uGh dGhApp hLev uLev hWd hTal hSr hAsh dGhDiv dLevMeta =
          specHostnameCore hGh uGh hLev uLev hWd hTal hSr hAsh) := by
  decide

/-- A page whose hostname matches the Lever table entry but whose DOM
carries the Greenhouse application marker. -/
def leverPageWithGhMarker : PageInfo :=
  { hostname := "jobs.lever.co", href := "https://jobs.lever.co/acme",
    hasGreenhouseApp := true, hasGreenhouseDiv := false, hasLeverMeta := false }

/-- Counterexample to C9: the `#greenhouse-application` DOM probe is
evaluated inside the first branch, **before** the Lever hostname check —
on a `jobs.lever.co` page carrying that marker the classifier answers
Greenhouse although a hostname-table entry (checked later) matches and
the pure hostname-priority lookup answers Lever.  So not all hostname
checks run before every DOM-marker check. -/
theorem c9_dom_marker_before_hostname :
    getPlatform leverPageWithGhMarker = .greenhouse ∧
    strContains leverPageWithGhMarker.hostname "lever.co" = true ∧
    specHostnameLookup leverPageWithGhMarker = .lever := by
  decide

/-- C9 (amended): the classifier is a total function into the closed
platform enumeration; it returns `unknown` exactly when no hostname/URL
table entry and no DOM marker matches; and on any page without DOM
markers it coincides with the fixed-priority hostname-table lookup — the
only deviation from the claimed order is the Greenhouse DOM probe
evaluated inside the first branch. -/
theorem c9_classifier_amended :
    ∀ p : PageInfo,
      (getPlatform p = .unknown ↔ (hostMatch p = false ∧ domMatch p = false)) ∧
      (domMatch p = false → getPlatform p = specHostnameLookup p) := by
  intro p
  exact getPlatformCore_spec
    (strContains p.hostname "greenhouse.io")
    (strContains (strLower p.href) "boards.greenhouse.io")
    p.hasGreenhouseApp
    (strContains p.hostname "lever.co")
    (strContains (strLower p.href) "jobs.lever.co")
    (strContains p.hostname "myworkdayjobs.com")
    (strContains p.hostname "taleo.net")
    (strContains p.hostname "smartrecruiters.com")
    (strContains p.hostname "ashbyhq.com")
    p.hasGreenhouseDiv
    p.hasLeverMeta

/-- A plain Greenhouse job-board page with no DOM markers. -/
def greenhousePage : PageInfo :=
  { hostname := "boards.greenhouse.io", href := "https://boards.greenhouse.io/acme",
    hasGreenhouseApp := false, hasGreenhouseDiv := false, hasLeverMeta := false }

/-- Witness for C9 (amended): on the marker-free Greenhouse page the
classifier coincides with the hostname-priority lookup. -/
theorem c9_classifier_amended_witness :
    getPlatform greenhousePage = specHostnameLookup greenhousePage :=
  (c9_classifier_amended greenhousePage).2 rfl

/-! ## Fill orchestrator pass (`runAutoFill`, lever.js lines 89-133; the
same structure in ashby.js lines 100-149)

One invocation of `runAutoFill` at a given attempt number is a pure
function of what the page shows: whether a `<form>` exists, how many
`<input>` elements are present, and how many of the handler's `fillField`
calls would locate a field (each located field starts a `tryFill` loop
and contributes to `filledCount` immediately, regardless of whether the
injected value ever sticks). -/

/-- lever.js line 90: `MAX_ATTEMPTS`. -/
def maxAttempts : Nat := 20

structure PageView where
  hasForm : Bool
  inputCount : Nat
  /-- Number of `fillField` calls of the pass that locate a field (each
  returns `true` as soon as the field is found and the fill initiated). -/
  foundCount : Nat
deriving DecidableEq, Repr

inductive PassOutcome where
  /-- Rescheduled by the page-readiness check before attempting fills. -/
  | rescheduledEarly
  /-- JS `showToast("Auto-filled N fields!", "success")`; no reschedule. -/
  | successToast (n : Nat)
  /-- Zero fields found, attempts remain: rescheduled after 500 ms. -/
  | rescheduled
  /-- Attempts exhausted with zero fields found: failure reported. -/
  | failedReport
  /-- JS `attempt > MAX_ATTEMPTS` (unreachable from the entry call): silence. -/
  | stoppedSilent
deriving DecidableEq, Repr

/-- lever.js line 97: `(!form || inputs.length < 2) && attempt < MAX_ATTEMPTS`. -/
def earlyRescheduleCond (pv : PageView) (attempt : Nat) : Bool :=
  (!pv.hasForm || decide (pv.inputCount < 2)) && decide (attempt < maxAttempts)

/-- One `runAutoFill` pass (lever.js lines 89-133) reduced to its
control-flow outcome. -/
def runAutoFillStep (pv : PageView) (attempt : Nat) : PassOutcome :=
  if earlyRescheduleCond pv attempt then .rescheduledEarly
  else if pv.foundCount > 0 then .successToast pv.foundCount
  else if attempt < maxAttempts then .rescheduled
  else if attempt = maxAttempts then .failedReport
  else .stoppedSilent

/-- Counterexample to C7: at the final attempt on a ready page where one
field is located but the page reverts every injection (so, by the
`tryFill` semantics, the field is never confirmed), the handler shows the
success toast and does not report failure — contradicting "once the
maximum attempt count is exhausted with zero confirmations it stops and
reports failure".  The success criterion of the code is "found", not
"confirmed". -/
theorem c7_success_toast_without_confirmation :
    runAutoFillStep ⟨true, 2, 1⟩ maxAttempts = .successToast 1 ∧
    runAutoFillStep ⟨true, 2, 1⟩ maxAttempts ≠ .failedReport ∧
    tryFillConfirmed (fun _ => some "previous") "test@x.com" 0 retryBudget = false := by
  refine ⟨by decide, by decide, by decide⟩

/-- C7 (amended): if at least one field reached Confirmed then (since a
field is confirmed only after its fill was initiated, which requires the
pass to have run its fill section and found it) the handler shows the
success toast and does not self-reschedule; if the page-readiness
heuristic holds while attempts remain, a fresh pass is rescheduled; with
zero fields **located** and attempts remaining it also reschedules; and
when the maximum attempt count is exhausted with zero fields located it
stops and reports failure. -/
theorem c7_pass_outcomes_amended :
    (∀ (pv : PageView) (attempt confirmedCount : Nat),
      (0 < confirmedCount →
        earlyRescheduleCond pv attempt = false ∧ 0 < pv.foundCount) →
      0 < confirmedCount →
      runAutoFillStep pv attempt = .successToast pv.foundCount) ∧
    (∀ (pv : PageView) (attempt : Nat),
      earlyRescheduleCond pv attempt = true →
      runAutoFillStep pv attempt = .rescheduledEarly) ∧
    (∀ (pv : PageView) (attempt : Nat),
      pv.foundCount = 0 → earlyRescheduleCond pv attempt = false →
      attempt < maxAttempts →
      runAutoFillStep pv attempt = .rescheduled) ∧
    (∀ pv : PageView, pv.foundCount = 0 →
      runAutoFillStep pv maxAttempts = .failedReport) := by
  refine ⟨?_, ?_, ?_, ?_⟩
  · intro pv attempt c hc h
    obtain ⟨he, hf⟩ := hc h
    simp [runAutoFillStep, he, hf]
  · intro pv attempt h
    simp [runAutoFillStep, h]
  · intro pv attempt h0 he hlt
    simp [runAutoFillStep, he, h0, hlt]
  · intro pv h0
    have he : earlyRescheduleCond pv maxAttempts = false := by
      simp [earlyRescheduleCond, maxAttempts]
    unfold runAutoFillStep
    rw [he, h0]
    decide

/-- Witness for C7 (amended): the exhaustion conjunct applied to a ready
page on which no field was located. -/
theorem c7_pass_outcomes_amended_witness :
    runAutoFillStep ⟨true, 2, 0⟩ maxAttempts = .failedReport :=
  c7_pass_outcomes_amended.2.2.2 ⟨true, 2, 0⟩ rfl
